import Mathlib

/-!
Verification of the search-orchestration and coordinate-transform core of the
pt_google_lens repository, as a shallow embedding in Lean 4.

Sources embedded here:
- `ai-tagging-api/app/services/ai/google_lens_products_adapter.rb`
  (`build_imgix_crop_url`, `search`, `detect_currency`, `clean_price`,
  `fallback_search`)
- `ai-tagging-api/app/services/ai/visual_search_adapter.rb` (`search`)
- `Ai::ShoppingSearchAdapter` (`search`, `fallback_search`, `detect_currency`)
- `ai-tagging-ui/lib/cache.ts` (`generateImageHash`, `getCachedResult`,
  `addToHistory`, `removeFromHistory`)

Ruby `Float` arithmetic on normalized coordinates is modelled with exact
rationals (`ℚ`); machine integers are modelled with `ℤ`/`ℕ`, with explicit
wrapping where the JavaScript source performs 32-bit coercion.
-/

namespace PtGoogleLens

/-! ## Coordinate transforms (`build_imgix_crop_url`) -/

/-- Ruby `Float#to_i` / `Integer` conversion: truncation toward zero.
Used by `build_imgix_crop_url` as `(bounding_box[:x].to_f * w).to_i`. -/
def ratTrunc (q : ℚ) : ℤ :=
  if 0 ≤ q then ⌊q⌋ else ⌈q⌉

/-- A normalized bounding box `{x, y, width, height}`, values relative to the
image (or sub-image) it was detected on. -/
structure BoundingBox where
  x : ℚ
  y : ℚ
  width : ℚ
  height : ℚ
deriving DecidableEq, Repr

/-- Integer pixel dimensions of an image, from `image_dimensions[:width].to_i`
and `image_dimensions[:height].to_i`. -/
structure ImageDims where
  width : ℤ
  height : ℤ
deriving DecidableEq, Repr

/-- An absolute pixel rectangle, the `rect=x,y,w,h` imgix crop parameter. -/
structure PixelRect where
  x : ℤ
  y : ℤ
  width : ℤ
  height : ℤ
deriving DecidableEq, Repr

/-- The `elsif image_dimensions.present?` branch of `build_imgix_crop_url`:
`crop_x = (bounding_box[:x].to_f * img_width).to_i` and so on. -/
def toPixelRect (box : BoundingBox) (dims : ImageDims) : PixelRect where
  x := ratTrunc (box.x * dims.width)
  y := ratTrunc (box.y * dims.height)
  width := ratTrunc (box.width * dims.width)
  height := ratTrunc (box.height * dims.height)

/-- The `if orig_rect` branch of `build_imgix_crop_url`: the bounding box is
relative to the URL's existing crop rect, so
`crop_x = orig_x + (bounding_box[:x].to_f * orig_w).to_i` and so on. -/
def composeNested (existing : PixelRect) (box : BoundingBox) : PixelRect where
  x := existing.x + ratTrunc (box.x * existing.width)
  y := existing.y + ratTrunc (box.y * existing.height)
  width := ratTrunc (box.width * existing.width)
  height := ratTrunc (box.height * existing.height)

/-- The exact combined box of two sequential nested crops: applying `b2`
inside `b1` is mathematically the single box below. -/
def combineBoxes (b1 b2 : BoundingBox) : BoundingBox where
  x := b1.x + b2.x * b1.width
  y := b1.y + b2.y * b1.height
  width := b1.width * b2.width
  height := b1.height * b2.height

/-! ## String utilities

Boolean substring tests over `List Char`, modelling Ruby `String#include?`
and the anchored-free regex tests (`match?(/S\$|SGD|Singapore/i)` is a
case-insensitive substring test for any of the three alternatives). -/

/-- Boolean list-prefix test. -/
def isPrefB [DecidableEq α] : List α → List α → Bool
  | [], _ => true
  | _ :: _, [] => false
  | a :: as, b :: bs => a = b && isPrefB as bs

/-- Boolean list-infix test: does `pat` occur contiguously in `text`? -/
def isInfixB [DecidableEq α] (pat : List α) : List α → Bool
  | [] => pat.isEmpty
  | b :: bs => isPrefB pat (b :: bs) || isInfixB pat bs

/-- Ruby `String#include?`. -/
def containsStr (s pat : String) : Bool := isInfixB pat.toList s.toList

def lowerList (l : List Char) : List Char := l.map Char.toLower

/-- Case-insensitive substring test, modelling a `/.../ i` regex alternative. -/
def containsCI (s pat : String) : Bool := isInfixB (lowerList pat.toList) (lowerList s.toList)

/-- Ruby `String#strip` (leading/trailing whitespace removed). -/
def stripList (l : List Char) : List Char :=
  ((l.dropWhile Char.isWhitespace).reverse.dropWhile Char.isWhitespace).reverse

def stripStr (s : String) : String := String.mk (stripList s.toList)

/-- Rails `present?` on a string: not empty and not whitespace-only. -/
def presentStr (s : String) : Bool := !(stripList s.toList).isEmpty

/-- Rails `present?` on a nilable string. -/
def presentOpt : Option String → Bool
  | none => false
  | some s => presentStr s

/-! ## Currency inference -/

/-- `GoogleLensProductsAdapter.detect_currency(price_string, country)`:
SGD markers first, then the Singapore `$`-default, then the generic
symbol table. -/
def glDetectCurrency (priceString : Option String) (country : String) : Option String :=
  match priceString with
  | none => none
  | some ps =>
    let s := stripStr ps
    if containsCI s "S$" || containsCI s "SGD" || containsCI s "Singapore" then some "SGD"
    else if country = "sg" && containsStr s "$" &&
        !(containsCI s "USD" || containsCI s "US$" || containsCI s "United States") then
      some "SGD"
    else if containsStr s "$" then some "USD"
    else if containsStr s "€" then some "EUR"
    else if containsStr s "£" then some "GBP"
    else if containsStr s "¥" then some "JPY"
    else if containsStr s "₹" then some "INR"
    else none

/-- `ShoppingSearchAdapter.detect_currency(price_string)`: a plain
`case price_string` whose `/\$/` branch precedes the `/S\$/` branch. -/
def shoppingDetectCurrency (priceString : Option String) : Option String :=
  match priceString with
  | none => none
  | some s =>
    if containsStr s "$" then some "USD"
    else if containsStr s "€" then some "EUR"
    else if containsStr s "£" then some "GBP"
    else if containsStr s "¥" then some "JPY"
    else if containsStr s "S$" then some "SGD"
    else none

/-- `clean_price`: strip, drop trailing `*`s, strip again. -/
def cleanPrice (priceString : Option String) : Option String :=
  match priceString with
  | none => none
  | some s =>
    some (String.mk (stripList ((stripList s.toList).reverse.dropWhile (· = '*')).reverse))

/-! ## Query-parameter maps

`URI.decode_www_form(uri.query).to_h` produces a hash with unique keys;
modelled as an association list. -/

/-- Hash read `params[k]`. -/
def lookupKey : List (String × β) → String → Option β
  | [], _ => none
  | p :: rest, k => if p.1 = k then some p.2 else lookupKey rest k

/-- Hash write `params[k] = v`: replace in place, or append when absent. -/
def setKey : List (String × β) → String → β → List (String × β)
  | [], k, v => [(k, v)]
  | p :: rest, k, v => if p.1 = k then (k, v) :: rest else p :: setKey rest k v

/-- Hash delete `params.delete(k)`. -/
def removeKey (l : List (String × β)) (k : String) : List (String × β) :=
  l.filter (fun p => p.1 != k)

/-- The imgix `rect=x,y,w,h` parameter value. -/
def rectParam (r : PixelRect) : String :=
  toString r.x ++ "," ++ toString r.y ++ "," ++ toString r.width ++ "," ++ toString r.height

/-- The parameter-rewriting tail of `build_imgix_crop_url`:
`params["rect"] = "#{x},#{y},#{w},#{h}"`, `params["w"] = [crop_w, 500].min.to_s`,
`params.delete("dpr")`, `params.delete("fit")`. -/
def serializeCropParams (params : List (String × String)) (r : PixelRect) :
    List (String × String) :=
  removeKey
    (removeKey
      (setKey (setKey params "rect" (rectParam r)) "w" (toString (min r.width 500)))
      "dpr")
    "fit"

/-! ## Result cache (`cache.ts`) -/

/-- `MAX_CACHE_AGE_MS = 24 * 60 * 60 * 1000`. -/
def maxCacheAgeMs : ℤ := 24 * 60 * 60 * 1000

/-- A parsed localStorage cache entry. -/
structure CacheEntry (α : Type) where
  data : α
  timestamp : ℤ
  imageHash : String
deriving DecidableEq, Repr

/-- The localStorage key `` `${CACHE_PREFIX}${cacheKey}_${imageHash}` ``. -/
def cacheFullKey (cacheKey imageHash : String) : String :=
  "ai_tagging_cache_" ++ cacheKey ++ "_" ++ imageHash

/-- `getCachedResult(cacheKey, imageHash)` over a localStorage modelled as an
association list; `Date.now()` is the explicit `now`. Returns the read result
and the updated storage (expired or hash-mismatched entries are removed). -/
def getCachedResult (now : ℤ) (cacheKey imageHash : String)
    (st : List (String × CacheEntry α)) : Option α × List (String × CacheEntry α) :=
  let key := cacheFullKey cacheKey imageHash
  match lookupKey st key with
  | none => (none, st)
  | some entry =>
    if maxCacheAgeMs < now - entry.timestamp then (none, removeKey st key)
    else if entry.imageHash ≠ imageHash then (none, removeKey st key)
    else (some entry.data, st)

/-! ## History log (`cache.ts`) -/

/-- A stored history entry. -/
structure HistoryEntry where
  id : String
  timestamp : ℤ
  imageHash : String
  imageThumbnail : Option String
  objectCount : ℕ
  provider : String
deriving DecidableEq, Repr

/-- The caller-supplied entry, `Omit<HistoryEntry, 'id'>`. -/
structure HistoryInput where
  timestamp : ℤ
  imageHash : String
  imageThumbnail : Option String
  objectCount : ℕ
  provider : String
deriving DecidableEq, Repr

/-- `{ ...history[existingIndex], ...entry, timestamp: Date.now() }`: the old
id is kept, every other field comes from the new entry, and the timestamp is
re-touched to `now`. -/
def retouch (old : HistoryEntry) (e : HistoryInput) (now : ℤ) : HistoryEntry where
  id := old.id
  timestamp := now
  imageHash := e.imageHash
  imageThumbnail := e.imageThumbnail
  objectCount := e.objectCount
  provider := e.provider

/-- The fresh entry `{ ...entry, id: `hist_${Date.now()}_${rand}` }`. -/
def freshEntry (now : ℤ) (rand : String) (e : HistoryInput) : HistoryEntry where
  id := "hist_" ++ toString now ++ "_" ++ rand
  timestamp := e.timestamp
  imageHash := e.imageHash
  imageThumbnail := e.imageThumbnail
  objectCount := e.objectCount
  provider := e.provider

/-- `history.findIndex(h => h.imageHash === hash)` followed by in-place
assignment at that index: replace the first entry matching `hash` by `f` of
it, or `none` when no entry matches. -/
def updateFirstMatching (hash : String) (f : HistoryEntry → HistoryEntry) :
    List HistoryEntry → Option (List HistoryEntry)
  | [] => none
  | x :: xs =>
    if x.imageHash = hash then some (f x :: xs)
    else (updateFirstMatching hash f xs).map (x :: ·)

/-- `MAX_HISTORY_ENTRIES = 20`. -/
def maxHistoryEntries : ℕ := 20

/-- `addToHistory(entry)`: re-touch the first entry with the same fingerprint
in place, else `unshift` a fresh entry; then `slice(0, MAX_HISTORY_ENTRIES)`. -/
def addToHistory (now : ℤ) (rand : String) (e : HistoryInput)
    (history : List HistoryEntry) : List HistoryEntry :=
  match updateFirstMatching e.imageHash (fun old => retouch old e now) history with
  | some updated => updated.take maxHistoryEntries
  | none => (freshEntry now rand e :: history).take maxHistoryEntries

/-- `removeFromHistory(id)`: `history.filter(h => h.id !== id)`. -/
def removeFromHistory (entryId : String) (history : List HistoryEntry) :
    List HistoryEntry :=
  history.filter (fun h => h.id != entryId)

/-- One mutation of the stored history log. -/
inductive HistoryOp where
  | add (now : ℤ) (rand : String) (e : HistoryInput)
  | remove (entryId : String)
deriving DecidableEq, Repr

def applyHistoryOp (history : List HistoryEntry) : HistoryOp → List HistoryEntry
  | .add now rand e => addToHistory now rand e history
  | .remove entryId => removeFromHistory entryId history

/-- The stored history after a sequence of additions and removals, starting
from an empty log. -/
def runHistory (ops : List HistoryOp) : List HistoryEntry :=
  ops.foldl applyHistoryOp []

/-- Most-recent-first order by timestamp: each entry's timestamp is ≥ the
next one's. -/
def mostRecentFirstB : List HistoryEntry → Bool
  | [] => true
  | [_] => true
  | a :: b :: rest => decide (b.timestamp ≤ a.timestamp) && mostRecentFirstB (b :: rest)

/-! ## Cache-key hash (`generateImageHash`)

The base64 string is modelled as its list of UTF-16 code units
(`charCodeAt`); base64 data is ASCII so each unit is the character code. -/

/-- JavaScript 32-bit signed coercion (`hash & hash`, and the implicit
coercion of `<<`). -/
def jsToInt32 (n : ℤ) : ℤ := (n + 2 ^ 31) % 2 ^ 32 - 2 ^ 31

/-- One loop iteration: `hash = ((hash << 5) - hash) + char; hash = hash & hash`.
`hash` is already a 32-bit value, so `hash << 5` wraps to 32 bits before the
exact subtraction and addition, and the `& hash` wraps the result. -/
def jsHashStep (h : ℤ) (c : ℕ) : ℤ := jsToInt32 (jsToInt32 (h * 32) - h + c)

def jsHash (l : List ℕ) : ℤ := l.foldl jsHashStep 0

/-- The sampled input: first 1000 + last 1000 code units when longer than
2000, the whole string otherwise. -/
def hashSample (l : List ℕ) : List ℕ :=
  if 2000 < l.length then l.take 1000 ++ l.drop (l.length - 1000) else l

/-- `generateImageHash`: `` `${CACHE_VERSION}_${Math.abs(hash)}_${length}` ``. -/
def generateImageHash (l : List ℕ) : String :=
  "v1_" ++ toString (jsHash (hashSample l)).natAbs ++ "_" ++ toString l.length

/-! ## Provider adapters and the fallback chain

Effects are modelled explicitly: the HTTP call (and the `JSON.parse` of its
body) is an oracle of type `Except String _` whose `error` case stands for a
raised Ruby exception; an adapter that can itself raise has result type
`Except String _`. Fields not read by any claim (request ids, timings,
ratings…) are not modelled. -/

/-- One normalized product match. -/
structure Product where
  title : Option String
  url : Option String
  price : Option String
  currency : Option String
  imageUrl : Option String
  merchant : Option String
deriving DecidableEq, Repr

/-- One static fallback shopping link. -/
structure ShoppingLink where
  title : String
  url : String
  merchant : String
  logo : String
deriving DecidableEq, Repr

/-- A search-tier result envelope. -/
structure TierResult where
  success : Bool
  products : List Product
  shoppingLinks : List ShoppingLink
  source : Option String
  error : Option String
  message : Option String
  query : Option String
deriving DecidableEq, Repr

/-- Upper-case hexadecimal digit. -/
def hexDigit (n : ℕ) : Char :=
  if n < 10 then Char.ofNat (48 + n) else Char.ofNat (55 + n)

/-- UTF-8 bytes of a code point. -/
def utf8Bytes (n : ℕ) : List ℕ :=
  if n < 128 then [n]
  else if n < 2048 then [192 + n / 64, 128 + n % 64]
  else if n < 65536 then [224 + n / 4096, 128 + n / 64 % 64, 128 + n % 64]
  else [240 + n / 262144, 128 + n / 4096 % 64, 128 + n / 64 % 64, 128 + n % 64]

/-- `ERB::Util.url_encode`: every byte outside `[A-Za-z0-9_.~-]` is
percent-encoded. -/
def urlEncodeChar (c : Char) : List Char :=
  if c.isAlphanum || c = '-' || c = '_' || c = '.' || c = '~' then [c]
  else (utf8Bytes c.toNat).foldr
    (fun b acc => '%' :: hexDigit (b / 16) :: hexDigit (b % 16) :: acc) []

def urlEncode (s : String) : String :=
  String.mk (s.toList.foldr (fun c acc => urlEncodeChar c ++ acc) [])

/-- `ShoppingSearchAdapter.fallback_search`: deterministic links for the
eight configured merchants; always succeeds, with an explanatory message. -/
def fallbackSearch (query : String) : TierResult :=
  let enc := urlEncode query
  { success := true
    products := []
    shoppingLinks := [
      ⟨"Search on Amazon", "https://www.amazon.com/s?k=" ++ enc, "Amazon", "🛒"⟩,
      ⟨"Search on eBay", "https://www.ebay.com/sch/i.html?_nkw=" ++ enc, "eBay", "🏷️"⟩,
      ⟨"Search on Wayfair", "https://www.wayfair.com/keyword.html?keyword=" ++ enc,
        "Wayfair", "🏠"⟩,
      ⟨"Search on IKEA", "https://www.ikea.com/us/en/search/products/?q=" ++ enc,
        "IKEA", "🪑"⟩,
      ⟨"Search on Google Shopping", "https://www.google.com/search?tbm=shop&q=" ++ enc,
        "Google Shopping", "🔍"⟩,
      ⟨"Search on Lazada", "https://www.lazada.sg/catalog/?q=" ++ enc, "Lazada", "🛍️"⟩,
      ⟨"Search on Shopee", "https://shopee.sg/search?keyword=" ++ enc, "Shopee", "🧡"⟩,
      ⟨"Search on HipVan", "https://www.hipvan.com/search?q=" ++ enc, "HipVan", "✨"⟩]
    source := some "fallback_links"
    error := none
    message := some "Direct product search not available. Use the shopping links below to search."
    query := some query }

/-- `ShoppingSearchAdapter.search`: priority 1 the Google Lens image tier
(taken only when it succeeds with a non-empty product list), priority 2 the
SerpApi keyword tier (taken whenever it reports success), priority 3 the
static fallback links. The two tier invocations are modelled by their
results. -/
def shoppingSearch (serpKey imageUrl : Option String)
    (imageResult keywordResult : TierResult) (query : String) : TierResult :=
  let keywordStep :=
    if presentOpt serpKey then
      if keywordResult.success then keywordResult else fallbackSearch query
    else fallbackSearch query
  if presentOpt imageUrl && presentOpt serpKey then
    if imageResult.success && !imageResult.products.isEmpty then imageResult
    else keywordStep
  else keywordStep

/-- One `visual_matches` item of a parsed SerpApi body (fields the adapter
reads). -/
structure SerpItem where
  title : Option String
  link : Option String
  priceValue : Option String
  priceCurrency : Option String
  image : Option String
  thumbnail : Option String
  source : Option String
deriving DecidableEq, Repr

/-- An HTTP response: status, and the outcome of `JSON.parse` on its body
(`error` = the parse raised). -/
structure SerpHttpResponse where
  status : ℕ
  parsedBody : Except String (List SerpItem)
deriving Repr

/-- Faraday `response.success?`: status in 200..299. -/
def responseSuccess (status : ℕ) : Bool := 200 ≤ status && status < 300

/-- The product mapping inside `handle_serpapi_response`. -/
def glProduct (country : String) (item : SerpItem) : Product where
  title := item.title
  url := item.link
  price := cleanPrice item.priceValue
  currency :=
    match item.priceCurrency with
    | some c => some c
    | none => glDetectCurrency item.priceValue country
  imageUrl :=
    match item.image with
    | some i => some i
    | none => item.thumbnail
  merchant := item.source

/-- `GoogleLensProductsAdapter.handle_serpapi_response`; the `JSON.parse` of
a 2xx body may raise, which propagates to the caller. -/
def handleSerpapiResponse (resp : SerpHttpResponse) (country : String) :
    Except String TierResult :=
  if responseSuccess resp.status then
    match resp.parsedBody with
    | .error e => .error e
    | .ok items =>
      .ok { success := true
            products := items.map (glProduct country)
            shoppingLinks := []
            source := some "serpapi_google_lens_products"
            error := none, message := none, query := none }
  else
    .ok { success := false
          error := some ("SerpApi request failed: " ++ toString resp.status)
          products := [], shoppingLinks := [], source := none
          message := none, query := none }

/-- `GoogleLensProductsAdapter.fallback_search`: the missing-key error
envelope (also reused by the `rescue` handler). -/
def glFallbackResult : TierResult where
  success := false
  products := []
  shoppingLinks := []
  source := some "fallback"
  error := some "SerpApi key not configured. Please set SERPAPI_KEY environment variable."
  message := none
  query := none

/-- The `/^https?:\/\//` URL check. -/
def isHttpUrl (url : String) : Bool :=
  isPrefB "http://".toList url.toList || isPrefB "https://".toList url.toList

def invalidUrlResult : TierResult where
  success := false
  products := []
  shoppingLinks := []
  source := none
  error := some "Invalid image URL. Must be a valid HTTP/HTTPS URL."
  message := none
  query := none

def localUrlResult : TierResult where
  success := false
  products := []
  shoppingLinks := []
  source := none
  error := some "Local URL not accessible by SerpApi. URL must be publicly accessible."
  message := none
  query := none

/-- The body of `GoogleLensProductsAdapter.search` (before its `rescue`):
key check (`unless api_key` is a nil check), URL validation, localhost
check, then the SerpApi call — whose outcome, including any raised
exception, is the `httpResult` oracle. The bounding box and image
dimensions only shape the crop URL sent out, not the result envelope, so
they do not appear here. -/
def glSearchBody (serpKey : Option String) (imageUrl : String)
    (httpResult : Except String SerpHttpResponse) : Except String TierResult :=
  match serpKey with
  | none => .ok glFallbackResult
  | some _ =>
    if !isHttpUrl imageUrl then .ok invalidUrlResult
    else if containsStr imageUrl "localhost" || containsStr imageUrl "127.0.0.1" then
      .ok localUrlResult
    else
      match httpResult with
      | .error e => .error e
      | .ok resp => handleSerpapiResponse resp "sg"

/-- `GoogleLensProductsAdapter.search` with its `rescue StandardError`:
any raised error is converted to the fallback envelope. -/
def glSearch (serpKey : Option String) (imageUrl : String)
    (httpResult : Except String SerpHttpResponse) : Except String TierResult :=
  match glSearchBody serpKey imageUrl httpResult with
  | .ok r => .ok r
  | .error _ => .ok glFallbackResult

/-- A parsed Google Vision body: only the per-response `error` field matters
to the control flow (`normalize_response`'s field mapping cannot raise and
is not read by any claim, so its payload is not modelled). -/
structure VisionBody where
  errorMessage : Option String
deriving DecidableEq, Repr

structure VisionHttpResponse where
  status : ℕ
  parsedBody : Except String VisionBody
deriving Repr

/-- `VisualSearchAdapter`'s result envelope (payload fields elided). -/
structure VsResult where
  success : Bool
  error : Option String
deriving DecidableEq, Repr

/-- `VisualSearchAdapter.search`: `raise "Google Cloud API Key not set"
unless api_key`, then the Faraday call and `handle_response` — with **no**
`rescue` anywhere, so the raise, an HTTP exception, or a `JSON.parse`
exception all propagate to the caller. -/
def vsSearch (googleKey : Option String)
    (httpResult : Except String VisionHttpResponse) : Except String VsResult :=
  match googleKey with
  | none => .error "Google Cloud API Key not set"
  | some _ =>
    match httpResult with
    | .error e => .error e
    | .ok resp =>
      if responseSuccess resp.status then
        match resp.parsedBody with
        | .error e => .error e
        | .ok body =>
          match body.errorMessage with
          | some msg =>
            .ok { success := false, error := some ("Google Vision API error: " ++ msg) }
          | none => .ok { success := true, error := none }
      else
        .ok { success := false
              error := some ("API request failed with status " ++ toString resp.status) }

/-- Does an adapter call return (rather than raise)? -/
def exceptOk : Except String α → Bool
  | .ok _ => true
  | .error _ => false

/-! ## Concrete fixtures used by witnesses and counterexamples -/

/-- A keyword-tier envelope that succeeded (HTTP 200) with zero
`shopping_results`. -/
def keywordEmptySuccess : TierResult where
  success := true
  products := []
  shoppingLinks := []
  source := some "serpapi_google_shopping"
  error := none
  message := none
  query := some "coffee machine"

/-- A failed tier result. -/
def imageTierFailure : TierResult where
  success := false
  products := []
  shoppingLinks := []
  source := none
  error := some "SerpApi request failed: 500"
  message := none
  query := none

/-- The shared first 1000 code units of the two sample inputs. -/
def sampleHead : List ℕ := List.replicate 1000 0

/-- The shared last 1000 code units of the two sample inputs. -/
def sampleTail : List ℕ := List.replicate 1000 0

/-- 2001 code units: 1000 zeros, a middle unit `1`, 1000 zeros. -/
def sampleBase64A : List ℕ := sampleHead ++ 1 :: sampleTail

/-- 2001 code units: 1000 zeros, a middle unit `2`, 1000 zeros. -/
def sampleBase64B : List ℕ := sampleHead ++ 2 :: sampleTail

/-- A seeded history entry with fingerprint `"A"`. -/
def histSeedEntry : HistoryEntry where
  id := "id1"
  timestamp := 1
  imageHash := "A"
  imageThumbnail := none
  objectCount := 2
  provider := "google_vision"

/-- A later input repeating fingerprint `"A"`. -/
def histRetouchInput : HistoryInput where
  timestamp := 5
  imageHash := "A"
  imageThumbnail := none
  objectCount := 3
  provider := "google_vision"

/-- C1 counterexample: the crop-rect computation truncates, so the claimed
pixel rectangle `{x:2642, y:4375, width:550, height:908}` (whose `x` comes
from round-to-nearest) is not what the code produces. -/
theorem c1_claimed_rect_refuted :
    toPixelRect ⟨0.48, 0.53, 0.10, 0.11⟩ ⟨5504, 8256⟩ ≠ ⟨2642, 4375, 550, 908⟩ := by
  simp only [toPixelRect, ratTrunc, PixelRect.mk.injEq]
  norm_num

/-- C1 (amended): for the bounding box `{x:0.48, y:0.53, width:0.10,
height:0.11}` over dimensions `{width:5504, height:8256}` the code yields
`{x:2641, y:4375, width:550, height:908}`: each coordinate is the normalized
value times the dimension truncated toward zero (`to_i`), not rounded. -/
theorem c1_toPixelRect_concrete :
    toPixelRect ⟨0.48, 0.53, 0.10, 0.11⟩ ⟨5504, 8256⟩ = ⟨2641, 4375, 550, 908⟩ := by
  simp only [toPixelRect, ratTrunc, PixelRect.mk.injEq]
  norm_num

/-! ### Basic facts about `ratTrunc` -/

theorem ratTrunc_of_nonneg {q : ℚ} (h : 0 ≤ q) : ratTrunc q = ⌊q⌋ := by
  simp [ratTrunc, h]

theorem ratTrunc_nonneg {q : ℚ} (h : 0 ≤ q) : 0 ≤ ratTrunc q := by
  rw [ratTrunc_of_nonneg h]
  exact Int.floor_nonneg.mpr h

theorem ratTrunc_le {q : ℚ} (h : 0 ≤ q) : (ratTrunc q : ℚ) ≤ q := by
  rw [ratTrunc_of_nonneg h]
  exact Int.floor_le q

theorem ratTrunc_lt_add_one (q : ℚ) : (ratTrunc q : ℚ) < q + 1 := by
  unfold ratTrunc
  split
  · exact lt_of_le_of_lt (Int.floor_le q) (lt_add_one q)
  · exact Int.ceil_lt_add_one q

/-- C2 counterexample: the stated round-to-nearest composition formula fails
(the code truncates), and exact associativity of nested composition fails:
two sequential nested crops differ from directly composing the
mathematically-equivalent single box. -/
theorem c2_compose_formula_and_assoc_refuted :
    (composeNested ⟨0, 0, 10, 10⟩ ⟨0.16, 0, 0.5, 0.5⟩).x ≠
        (0 : ℤ) + round ((0.16 : ℚ) * ((10 : ℤ) : ℚ)) ∧
      composeNested (composeNested ⟨0, 0, 10, 10⟩ ⟨0.05, 0, 1, 1⟩) ⟨0.05, 0, 1, 1⟩ ≠
        composeNested ⟨0, 0, 10, 10⟩ (combineBoxes ⟨0.05, 0, 1, 1⟩ ⟨0.05, 0, 1, 1⟩) := by
  constructor
  · simp only [composeNested, ratTrunc]
    norm_num [round_eq]
  · simp only [composeNested, combineBoxes, ratTrunc, PixelRect.mk.injEq]
    norm_num

/-- C2 (amended): for every existing pixel rect with non-negative extent and
every bounding box with non-negative coordinates, the composed rect has
`absoluteX = existing.x + floor(box.x*existing.width)` and
`absoluteWidth = floor(box.width*existing.width)` (symmetric for y/height):
truncation toward zero, which on these non-negative products is `floor`, not
round-to-nearest; exact associativity does not hold. -/
theorem c2_composeNested_trunc_formula (existing : PixelRect) (box : BoundingBox)
    (hw : 0 ≤ existing.width) (hh : 0 ≤ existing.height)
    (hbx : 0 ≤ box.x) (hby : 0 ≤ box.y) (hbw : 0 ≤ box.width) (hbh : 0 ≤ box.height) :
    composeNested existing box =
      ⟨existing.x + ⌊box.x * (existing.width : ℚ)⌋,
       existing.y + ⌊box.y * (existing.height : ℚ)⌋,
       ⌊box.width * (existing.width : ℚ)⌋,
       ⌊box.height * (existing.height : ℚ)⌋⟩ := by
  have hw' : (0 : ℚ) ≤ (existing.width : ℚ) := by exact_mod_cast hw
  have hh' : (0 : ℚ) ≤ (existing.height : ℚ) := by exact_mod_cast hh
  simp only [composeNested, PixelRect.mk.injEq]
  refine ⟨?_, ?_, ?_, ?_⟩ <;>
    rw [ratTrunc_of_nonneg (mul_nonneg (by assumption) (by assumption))]

/-- C2 witness: the amended formula at a concrete rect and box. -/
theorem c2_composeNested_trunc_formula_witness :
    composeNested ⟨3, 4, 10, 20⟩ ⟨0.16, 0.25, 0.5, 0.5⟩ =
      ⟨3 + ⌊(0.16 : ℚ) * ((10 : ℤ) : ℚ)⌋, 4 + ⌊(0.25 : ℚ) * ((20 : ℤ) : ℚ)⌋,
       ⌊(0.5 : ℚ) * ((10 : ℤ) : ℚ)⌋, ⌊(0.5 : ℚ) * ((20 : ℤ) : ℚ)⌋⟩ :=
  c2_composeNested_trunc_formula ⟨3, 4, 10, 20⟩ ⟨0.16, 0.25, 0.5, 0.5⟩
    (by norm_num) (by norm_num) (by norm_num) (by norm_num) (by norm_num) (by norm_num)

/-- C3: for every bounding box with `0 ≤ x`, `0 ≤ y`, `x+width ≤ 1`,
`y+height ≤ 1` and positive image dimensions, the computed pixel rect is
contained in the image: `x, y` non-negative, `x+width ≤ dims.width` and
`y+height ≤ dims.height`. -/
theorem c3_toPixelRect_contained (box : BoundingBox) (dims : ImageDims)
    (hx : 0 ≤ box.x) (hy : 0 ≤ box.y)
    (hxw : box.x + box.width ≤ 1) (hyh : box.y + box.height ≤ 1)
    (hW : 0 < dims.width) (hH : 0 < dims.height) :
    0 ≤ (toPixelRect box dims).x ∧ 0 ≤ (toPixelRect box dims).y ∧
      (toPixelRect box dims).x + (toPixelRect box dims).width ≤ dims.width ∧
      (toPixelRect box dims).y + (toPixelRect box dims).height ≤ dims.height := by
  have hW' : (0 : ℚ) < (dims.width : ℚ) := by exact_mod_cast hW
  have hH' : (0 : ℚ) < (dims.height : ℚ) := by exact_mod_cast hH
  have key : ∀ a b : ℚ, ∀ d : ℤ, 0 ≤ a → a + b ≤ 1 → (0 : ℚ) < (d : ℚ) →
      ratTrunc (a * d) + ratTrunc (b * d) ≤ d := by
    intro a b d ha hab hd
    have h1 : (ratTrunc (a * d) : ℚ) ≤ a * d := ratTrunc_le (mul_nonneg ha hd.le)
    have h2 : (ratTrunc (b * d) : ℚ) < b * d + 1 := ratTrunc_lt_add_one (b * d)
    have h3 : a * d + b * d ≤ d := by
      calc a * d + b * d = (a + b) * d := by ring
        _ ≤ 1 * d := mul_le_mul_of_nonneg_right hab hd.le
        _ = d := one_mul _
    have h4 : (ratTrunc (a * d) : ℚ) + (ratTrunc (b * d) : ℚ) < (d : ℚ) + 1 := by
      linarith
    have h5 : ratTrunc (a * d) + ratTrunc (b * d) < d + 1 := by exact_mod_cast h4
    omega
  refine ⟨ratTrunc_nonneg (mul_nonneg hx hW'.le), ratTrunc_nonneg (mul_nonneg hy hH'.le),
    key box.x box.width dims.width hx hxw hW', key box.y box.height dims.height hy hyh hH'⟩

/-- C3 witness: containment at a concrete box and image dimensions. -/
theorem c3_toPixelRect_contained_witness :
    0 ≤ (toPixelRect ⟨0.2, 0.3, 0.5, 0.6⟩ ⟨10, 10⟩).x ∧
      0 ≤ (toPixelRect ⟨0.2, 0.3, 0.5, 0.6⟩ ⟨10, 10⟩).y ∧
      (toPixelRect ⟨0.2, 0.3, 0.5, 0.6⟩ ⟨10, 10⟩).x +
          (toPixelRect ⟨0.2, 0.3, 0.5, 0.6⟩ ⟨10, 10⟩).width ≤ (10 : ℤ) ∧
      (toPixelRect ⟨0.2, 0.3, 0.5, 0.6⟩ ⟨10, 10⟩).y +
          (toPixelRect ⟨0.2, 0.3, 0.5, 0.6⟩ ⟨10, 10⟩).height ≤ (10 : ℤ) :=
  c3_toPixelRect_contained ⟨0.2, 0.3, 0.5, 0.6⟩ ⟨10, 10⟩
    (by norm_num) (by norm_num) (by norm_num) (by norm_num) (by norm_num) (by norm_num)

/-- C6: `GoogleLensProductsAdapter.detect_currency` behaves as claimed on all
three scenarios (\"S$20\" → SGD in any region; \"$20\" → SGD in region \"sg\",
USD in region \"us\"), but `ShoppingSearchAdapter.detect_currency` — whose
`/\$/` branch precedes its `/S\$/` branch, leaving the SGD branch
unreachable — returns USD for \"S$20\", contradicting the first scenario. -/
theorem c6_detect_currency_eval :
    glDetectCurrency (some "S$20") "sg" = some "SGD" ∧
      glDetectCurrency (some "S$20") "us" = some "SGD" ∧
      glDetectCurrency (some "$20") "sg" = some "SGD" ∧
      glDetectCurrency (some "$20") "us" = some "USD" ∧
      shoppingDetectCurrency (some "S$20") = some "USD" := by
  decide

/-! ### Association-list lemmas -/

theorem lookupKey_setKey_self (l : List (String × β)) (k : String) (v : β) :
    lookupKey (setKey l k v) k = some v := by
  induction l with
  | nil => simp [setKey, lookupKey]
  | cons p rest ih =>
    by_cases h : p.1 = k
    · simp [setKey, h, lookupKey]
    · simp [setKey, h, lookupKey, ih]

theorem lookupKey_setKey_ne (l : List (String × β)) (k k' : String) (v : β)
    (hne : k' ≠ k) : lookupKey (setKey l k v) k' = lookupKey l k' := by
  induction l with
  | nil => simp [setKey, lookupKey, Ne.symm hne]
  | cons p rest ih =>
    by_cases h : p.1 = k
    · subst h
      simp [setKey, lookupKey, Ne.symm hne]
    · simp [setKey, h, lookupKey, ih]

theorem lookupKey_removeKey_self (l : List (String × β)) (k : String) :
    lookupKey (removeKey l k) k = none := by
  induction l with
  | nil => rfl
  | cons p rest ih =>
    by_cases h : p.1 = k
    · simpa [removeKey, List.filter_cons, h] using ih
    · simpa [removeKey, List.filter_cons, h, lookupKey] using ih

theorem lookupKey_removeKey_ne (l : List (String × β)) (k k' : String)
    (hne : k' ≠ k) : lookupKey (removeKey l k) k' = lookupKey l k' := by
  induction l with
  | nil => rfl
  | cons p rest ih =>
    simp only [removeKey] at ih ⊢
    by_cases h : p.1 = k
    · have hpk : p.1 ≠ k' := by rw [h]; exact Ne.symm hne
      simp [List.filter_cons, h, lookupKey, hpk, ih, Ne.symm hne]
    · by_cases h2 : p.1 = k'
      · simp [List.filter_cons, h, lookupKey, h2, hne]
      · simp [List.filter_cons, h, lookupKey, h2, ih]

/-- C8: for every parameter map and every rect, the crop serialization sets
`rect` to `x,y,w,h`, sets the output width `w` to `min(crop width, 500)`,
and removes the conflicting `dpr` and `fit` parameters. -/
theorem c8_serializeCropParams_shape (params : List (String × String)) (r : PixelRect) :
    lookupKey (serializeCropParams params r) "rect" = some (rectParam r) ∧
      lookupKey (serializeCropParams params r) "w" = some (toString (min r.width 500)) ∧
      lookupKey (serializeCropParams params r) "dpr" = none ∧
      lookupKey (serializeCropParams params r) "fit" = none := by
  unfold serializeCropParams
  refine ⟨?_, ?_, ?_, ?_⟩
  · rw [lookupKey_removeKey_ne _ _ _ (by decide), lookupKey_removeKey_ne _ _ _ (by decide),
      lookupKey_setKey_ne _ _ _ _ (by decide), lookupKey_setKey_self]
  · rw [lookupKey_removeKey_ne _ _ _ (by decide), lookupKey_removeKey_ne _ _ _ (by decide),
      lookupKey_setKey_self]
  · rw [lookupKey_removeKey_ne _ _ _ (by decide), lookupKey_removeKey_self]
  · rw [lookupKey_removeKey_self]

/-- C7: a `get` on a key whose stored entry is older than the TTL returns
absent and removes the entry from storage; a second `get` on the same key
against the updated storage (no intervening `put`, at any later clock)
also returns absent and leaves storage unchanged. -/
theorem c7_cache_expiry_purges {α : Type} (st : List (String × CacheEntry α))
    (now now2 : ℤ) (cacheKey imageHash : String) (e : CacheEntry α)
    (hfound : lookupKey st (cacheFullKey cacheKey imageHash) = some e)
    (hexp : maxCacheAgeMs < now - e.timestamp) :
    (getCachedResult now cacheKey imageHash st).1 = none ∧
      lookupKey (getCachedResult now cacheKey imageHash st).2
        (cacheFullKey cacheKey imageHash) = none ∧
      (getCachedResult now2 cacheKey imageHash
        (getCachedResult now cacheKey imageHash st).2).1 = none ∧
      (getCachedResult now2 cacheKey imageHash
        (getCachedResult now cacheKey imageHash st).2).2 =
        (getCachedResult now cacheKey imageHash st).2 := by
  have h1 : getCachedResult now cacheKey imageHash st =
      (none, removeKey st (cacheFullKey cacheKey imageHash)) := by
    simp [getCachedResult, hfound, hexp]
  rw [h1]
  refine ⟨rfl, lookupKey_removeKey_self _ _, ?_, ?_⟩ <;>
    simp [getCachedResult, lookupKey_removeKey_self]

/-- C7 witness: a concrete expired entry is purged and stays absent. -/
theorem c7_cache_expiry_purges_witness :
    (getCachedResult 100000000 "detect" "h1"
        [(cacheFullKey "detect" "h1", (⟨42, 0, "h1"⟩ : CacheEntry ℕ))]).1 = none ∧
      lookupKey (getCachedResult 100000000 "detect" "h1"
          [(cacheFullKey "detect" "h1", (⟨42, 0, "h1"⟩ : CacheEntry ℕ))]).2
        (cacheFullKey "detect" "h1") = none ∧
      (getCachedResult 200000000 "detect" "h1"
        (getCachedResult 100000000 "detect" "h1"
          [(cacheFullKey "detect" "h1", (⟨42, 0, "h1"⟩ : CacheEntry ℕ))]).2).1 = none ∧
      (getCachedResult 200000000 "detect" "h1"
        (getCachedResult 100000000 "detect" "h1"
          [(cacheFullKey "detect" "h1", (⟨42, 0, "h1"⟩ : CacheEntry ℕ))]).2).2 =
        (getCachedResult 100000000 "detect" "h1"
          [(cacheFullKey "detect" "h1", (⟨42, 0, "h1"⟩ : CacheEntry ℕ))]).2 :=
  c7_cache_expiry_purges _ 100000000 200000000 "detect" "h1" ⟨42, 0, "h1"⟩
    (by simp [lookupKey]) (by decide)

/-- C4 counterexample: with the image tier failed and the keyword tier
succeeding with zero products, `ShoppingSearchAdapter.search` returns the
empty keyword envelope as the final result — no products, no fallback
links — rather than invoking the static fallback. -/
theorem c4_empty_keyword_success_refutes :
    shoppingSearch (some "key") (some "https://x.imgix.net/a.jpg")
        imageTierFailure keywordEmptySuccess "coffee machine" = keywordEmptySuccess ∧
      keywordEmptySuccess.products = [] ∧
      keywordEmptySuccess.shoppingLinks = [] ∧
      shoppingSearch (some "key") (some "https://x.imgix.net/a.jpg")
        imageTierFailure keywordEmptySuccess "coffee machine" ≠
        fallbackSearch "coffee machine" := by
  refine ⟨rfl, rfl, rfl, ?_⟩
  decide

/-- C4 (amended): when the image tier yields no products (failure or empty)
and the keyword tier does not report success, the chain returns the static
fallback result: success with the eight non-empty merchant links and an
explanatory message. A keyword-tier envelope with `success: true` is,
however, returned as the final result even when it carries zero products. -/
theorem c4_fallback_when_no_tier_data (serpKey imageUrl : Option String)
    (imageResult keywordResult : TierResult) (query : String)
    (himg : imageResult.success = false ∨ imageResult.products = [])
    (hkw : keywordResult.success = false) :
    shoppingSearch serpKey imageUrl imageResult keywordResult query = fallbackSearch query ∧
      (fallbackSearch query).success = true ∧
      (fallbackSearch query).shoppingLinks.length = 8 ∧
      (fallbackSearch query).message.isSome = true := by
  refine ⟨?_, rfl, rfl, rfl⟩
  rcases himg with h | h <;>
    cases hps : presentOpt serpKey <;>
      cases hpi : presentOpt imageUrl <;>
        simp [shoppingSearch, h, hkw, hps, hpi]

/-- C4 witness: both tiers failed at a concrete input; the fallback links
are returned. -/
theorem c4_fallback_when_no_tier_data_witness :
    shoppingSearch (some "key") none imageTierFailure imageTierFailure "sofa" =
        fallbackSearch "sofa" ∧
      (fallbackSearch "sofa").success = true ∧
      (fallbackSearch "sofa").shoppingLinks.length = 8 ∧
      (fallbackSearch "sofa").message.isSome = true :=
  c4_fallback_when_no_tier_data (some "key") none imageTierFailure imageTierFailure
    "sofa" (Or.inl rfl) rfl

/-- C5 counterexample: `VisualSearchAdapter.search` with no
`GOOGLE_CLOUD_API_KEY` raises instead of returning a result envelope, so an
exception does propagate out of an adapter's search. -/
theorem c5_visual_search_raises :
    vsSearch none (Except.ok ⟨200, Except.ok ⟨none⟩⟩) =
      Except.error "Google Cloud API Key not set" := rfl

/-- C5 (amended): `GoogleLensProductsAdapter.search` never lets an exception
escape — for every key, URL and HTTP outcome (including a raising call) it
returns a result envelope; `VisualSearchAdapter.search`, by contrast, raises
when the key is absent and propagates any exception of its HTTP call. -/
theorem c5_result_envelope_boundary :
    (∀ (serpKey : Option String) (imageUrl : String)
        (httpResult : Except String SerpHttpResponse),
        exceptOk (glSearch serpKey imageUrl httpResult) = true) ∧
      vsSearch none (Except.ok ⟨200, Except.ok ⟨none⟩⟩) =
        Except.error "Google Cloud API Key not set" ∧
      (∀ key e : String, vsSearch (some key) (Except.error e) = Except.error e) := by
  refine ⟨?_, rfl, fun key e => rfl⟩
  intro serpKey imageUrl httpResult
  unfold glSearch
  cases glSearchBody serpKey imageUrl httpResult <;> rfl

/-- C10: the cache-key hash is deterministic, and any two inputs longer than
2000 code units agreeing on their first 1000 units, their last 1000 units
and their total length receive the same cache key — distinct images
satisfying this collide onto one key. -/
theorem c10_hash_deterministic_and_collides :
    (∀ l : List ℕ, generateImageHash l = generateImageHash l) ∧
      ∀ s t : List ℕ, 2000 < s.length → 2000 < t.length →
        s.take 1000 = t.take 1000 →
        s.drop (s.length - 1000) = t.drop (t.length - 1000) →
        s.length = t.length →
        generateImageHash s = generateImageHash t := by
  refine ⟨fun l => rfl, ?_⟩
  intro s t hs ht h1 h2 hlen
  have hsample : hashSample s = hashSample t := by
    unfold hashSample
    rw [if_pos hs, if_pos ht, h1, h2]
  unfold generateImageHash
  rw [hsample, hlen]

/-- C10 witness: two distinct 2001-unit inputs differing only in the middle
unit get the same cache key. -/
theorem c10_hash_collision_witness :
    sampleBase64A ≠ sampleBase64B ∧
      generateImageHash sampleBase64A = generateImageHash sampleBase64B := by
  have hhead : sampleHead.length = 1000 := by rw [sampleHead, List.length_replicate]
  have htail : sampleTail.length = 1000 := by rw [sampleTail, List.length_replicate]
  have hlenA : sampleBase64A.length = 2001 := by
    rw [sampleBase64A, List.length_append, hhead, List.length_cons, htail]
  have hlenB : sampleBase64B.length = 2001 := by
    rw [sampleBase64B, List.length_append, hhead, List.length_cons, htail]
  have hmid : ∀ n : ℕ, (sampleHead ++ [n]).length = 1001 := by
    intro n
    rw [List.length_append, hhead, List.length_cons, List.length_nil]
  have hsplitA : sampleBase64A = (sampleHead ++ [1]) ++ sampleTail := by
    rw [sampleBase64A, List.append_assoc]
    rfl
  have hsplitB : sampleBase64B = (sampleHead ++ [2]) ++ sampleTail := by
    rw [sampleBase64B, List.append_assoc]
    rfl
  refine ⟨?_, c10_hash_deterministic_and_collides.2 sampleBase64A sampleBase64B
    (by rw [hlenA]; norm_num) (by rw [hlenB]; norm_num) ?_ ?_ (by rw [hlenA, hlenB])⟩
  · intro heq
    rw [sampleBase64A, sampleBase64B] at heq
    have h2 := List.append_cancel_left heq
    simp at h2
  · show (sampleHead ++ 1 :: sampleTail).take 1000 = (sampleHead ++ 2 :: sampleTail).take 1000
    rw [List.take_left' hhead, List.take_left' hhead]
  · rw [hlenA, hlenB, hsplitA, hsplitB]
    show ((sampleHead ++ [1]) ++ sampleTail).drop 1001 = ((sampleHead ++ [2]) ++ sampleTail).drop 1001
    rw [List.drop_left' (hmid 1), List.drop_left' (hmid 2)]

/-! ### History-log lemmas -/

theorem updateFirstMatching_eq_none {hash : String} {f : HistoryEntry → HistoryEntry}
    {h : List HistoryEntry} :
    updateFirstMatching hash f h = none ↔ ∀ x ∈ h, x.imageHash ≠ hash := by
  induction h with
  | nil => simp [updateFirstMatching]
  | cons x xs ih =>
    by_cases hx : x.imageHash = hash
    · simp [updateFirstMatching, hx]
    · simp [updateFirstMatching, hx, Option.map_eq_none', ih]

theorem updateFirstMatching_some_spec {hash : String} {f : HistoryEntry → HistoryEntry} :
    ∀ {h upd : List HistoryEntry}, updateFirstMatching hash f h = some upd →
      ∃ pre old post, h = pre ++ old :: post ∧ old.imageHash = hash ∧
        (∀ x ∈ pre, x.imageHash ≠ hash) ∧ upd = pre ++ f old :: post := by
  intro h
  induction h with
  | nil => intro upd hupd; simp [updateFirstMatching] at hupd
  | cons x xs ih =>
    intro upd hupd
    by_cases hx : x.imageHash = hash
    · simp only [updateFirstMatching, if_pos hx] at hupd
      exact ⟨[], x, xs, rfl, hx, by simp, (Option.some.inj hupd).symm⟩
    · simp only [updateFirstMatching, if_neg hx] at hupd
      rcases hmap : updateFirstMatching hash f xs with _ | upd'
      · rw [hmap] at hupd
        simp at hupd
      · rw [hmap, Option.map_some'] at hupd
        obtain ⟨pre, old, post, hdecomp, hold, hpre, hupd'⟩ := ih hmap
        refine ⟨x :: pre, old, post, ?_, hold, ?_, ?_⟩
        · rw [List.cons_append, ← hdecomp]
        · intro y hy
          rcases List.mem_cons.mp hy with rfl | hy2
          · exact hx
          · exact hpre y hy2
        · rw [List.cons_append, ← hupd']
          exact (Option.some.inj hupd).symm

theorem addToHistory_preserves (now : ℤ) (rand : String) (e : HistoryInput)
    (h : List HistoryEntry) (hnd : (h.map HistoryEntry.imageHash).Nodup) :
    (addToHistory now rand e h).length ≤ maxHistoryEntries ∧
      ((addToHistory now rand e h).map HistoryEntry.imageHash).Nodup := by
  unfold addToHistory
  rcases hcase : updateFirstMatching e.imageHash (fun old => retouch old e now) h with _ | upd
  · have hnotmem : e.imageHash ∉ h.map HistoryEntry.imageHash := by
      rw [updateFirstMatching_eq_none] at hcase
      intro hmem
      obtain ⟨x, hx, hxh⟩ := List.mem_map.mp hmem
      exact hcase x hx hxh
    refine ⟨List.length_take_le _ _, ?_⟩
    have hcons : ((freshEntry now rand e :: h).map HistoryEntry.imageHash).Nodup := by
      rw [List.map_cons]
      exact List.nodup_cons.mpr ⟨by simpa [freshEntry] using hnotmem, hnd⟩
    exact ((List.take_sublist _ _).map _).nodup hcons
  · obtain ⟨pre, old, post, hdecomp, hold, hpre, hupd⟩ := updateFirstMatching_some_spec hcase
    have hretouch : (retouch old e now).imageHash = old.imageHash := by
      simp [retouch, hold]
    have hmap2 : upd.map HistoryEntry.imageHash = h.map HistoryEntry.imageHash := by
      rw [hupd, hdecomp, List.map_append, List.map_append, List.map_cons, List.map_cons,
        hretouch]
    refine ⟨List.length_take_le _ _, ?_⟩
    exact ((List.take_sublist _ _).map _).nodup (hmap2 ▸ hnd)

theorem applyHistoryOp_preserves (h : List HistoryEntry) (op : HistoryOp)
    (hlen : h.length ≤ maxHistoryEntries) (hnd : (h.map HistoryEntry.imageHash).Nodup) :
    (applyHistoryOp h op).length ≤ maxHistoryEntries ∧
      ((applyHistoryOp h op).map HistoryEntry.imageHash).Nodup := by
  cases op with
  | add now rand e => exact addToHistory_preserves now rand e h hnd
  | remove entryId =>
    exact ⟨le_trans (List.length_filter_le _ _) hlen,
      ((List.filter_sublist _).map _).nodup hnd⟩

/-- C9 counterexample: add fingerprint A at time 1, B at time 2, then A again
at time 3 — the re-touch updates A's timestamp in place, so the stored log is
`[B(t=2), A(t=3)]`, which is not ordered most-recent-first by timestamp. -/
theorem c9_order_refuted :
    mostRecentFirstB (runHistory
      [.add 1 "r1" ⟨1, "A", none, 1, "p"⟩,
       .add 2 "r2" ⟨2, "B", none, 1, "p"⟩,
       .add 3 "r3" ⟨3, "A", none, 1, "p"⟩]) = false := by
  decide

/-- C9 (amended): after any sequence of history additions and removals the
stored log has at most 20 entries and no two entries share a fingerprint;
and adding an entry whose fingerprint already exists rewrites the first
matching entry in place — keeping its id and position, setting its timestamp
to now — rather than appending a duplicate. Most-recent-first timestamp
order, however, can be broken by such an in-place re-touch. -/
theorem c9_history_invariants :
    (∀ ops : List HistoryOp, (runHistory ops).length ≤ maxHistoryEntries ∧
        ((runHistory ops).map HistoryEntry.imageHash).Nodup) ∧
      ∀ (now : ℤ) (rand : String) (e : HistoryInput) (h : List HistoryEntry),
        e.imageHash ∈ h.map HistoryEntry.imageHash →
        ∃ pre old post,
          h = pre ++ old :: post ∧ old.imageHash = e.imageHash ∧
          (∀ x ∈ pre, x.imageHash ≠ e.imageHash) ∧
          addToHistory now rand e h =
            (pre ++ retouch old e now :: post).take maxHistoryEntries := by
  constructor
  · intro ops
    suffices hgen : ∀ h : List HistoryEntry, h.length ≤ maxHistoryEntries →
        (h.map HistoryEntry.imageHash).Nodup →
        (List.foldl applyHistoryOp h ops).length ≤ maxHistoryEntries ∧
          ((List.foldl applyHistoryOp h ops).map HistoryEntry.imageHash).Nodup by
      exact hgen [] (by simp [maxHistoryEntries]) (by simp)
    induction ops with
    | nil => intro h h1 h2; exact ⟨h1, h2⟩
    | cons op rest ih =>
      intro h h1 h2
      rw [List.foldl_cons]
      obtain ⟨h1', h2'⟩ := applyHistoryOp_preserves h op h1 h2
      exact ih _ h1' h2'
  · intro now rand e h hmem
    rcases hcase : updateFirstMatching e.imageHash (fun old => retouch old e now) h
      with _ | upd
    · exfalso
      rw [updateFirstMatching_eq_none] at hcase
      obtain ⟨x, hx, hxh⟩ := List.mem_map.mp hmem
      exact hcase x hx hxh
    · obtain ⟨pre, old, post, hdecomp, hold, hpre, hupd⟩ :=
        updateFirstMatching_some_spec hcase
      refine ⟨pre, old, post, hdecomp, hold, hpre, ?_⟩
      have hred : addToHistory now rand e h = upd.take maxHistoryEntries := by
        unfold addToHistory
        rw [hcase]
      rw [hred, hupd]

/-- C9 witness: re-adding the seeded fingerprint re-touches it in place. -/
theorem c9_history_invariants_witness :
    histRetouchInput.imageHash ∈ [histSeedEntry].map HistoryEntry.imageHash ∧
      ∃ pre old post,
        [histSeedEntry] = pre ++ old :: post ∧
        old.imageHash = histRetouchInput.imageHash ∧
        (∀ x ∈ pre, x.imageHash ≠ histRetouchInput.imageHash) ∧
        addToHistory 5 "r9" histRetouchInput [histSeedEntry] =
          (pre ++ retouch old histRetouchInput 5 :: post).take maxHistoryEntries :=
  ⟨by decide, c9_history_invariants.2 5 "r9" histRetouchInput [histSeedEntry] (by decide)⟩

end PtGoogleLens
